import Mathlib

/-!
Verification development for the MediTriage complaint triage pipeline
(`meditriage-preprocessor.py`, `meditriage-classifier.py`).

The Python modules are shallowly embedded: regular-expression substitutions
of `clean_text` are modelled as executable matchers with the exact
leftmost / greedy-with-backtracking semantics of `re.sub` (specialised to
each concrete pattern of the source, where backtracking can be resolved
statically); Python floats are modelled as exact rationals; wall-clock
time, logging and timestamps are not modelled (pure data flow only).
-/

set_option maxRecDepth 10000

namespace MediTriage

/-! ## Character classes (ASCII, as used by the source's regexes) -/

/-- ASCII uppercase letter, the class `[A-Z]`. -/
def isUpperC (c : Char) : Bool := 'A' ≤ c && c ≤ 'Z'

/-- ASCII lowercase letter, the class `[a-z]`. -/
def isLowerC (c : Char) : Bool := 'a' ≤ c && c ≤ 'z'

/-- ASCII digit, the class `\d` restricted to ASCII input. -/
def isDigitC (c : Char) : Bool := '0' ≤ c && c ≤ '9'

/-- Word character for the `\b` assertion: `[A-Za-z0-9_]`. -/
def isWordC (c : Char) : Bool := isUpperC c || isLowerC c || isDigitC c || c = '_'

/-- ASCII whitespace, the class `\s` (space, tab, newline, CR, VT, FF). -/
def isSpaceC (c : Char) : Bool :=
  c = ' ' || c = '\t' || c = '\n' || c = '\r' || c = '\x0b' || c = '\x0c'

/-- Length of the maximal prefix of `s` whose characters satisfy `p`
(a greedy character-class run such as `[a-z]+`). -/
def runLen (p : Char → Bool) : List Char → Nat
  | [] => 0
  | c :: cs => if p c then runLen p cs + 1 else 0

/-- Is the character at index `i` of `s` a word character (out of range
counts as non-word, as at the ends of a Python string)? -/
def wordAt (s : List Char) (i : Nat) : Bool :=
  match s.drop i with
  | c :: _ => isWordC c
  | [] => false

/-- The `\b` assertion after a match of `n` characters at the head of `s`:
the word-ness of the last matched character differs from that of the
character following the match. -/
def bAfter (s : List Char) (n : Nat) : Bool := wordAt s (n - 1) != wordAt s n

/-! ## `re.sub` driver

A matcher receives the word-ness of the character preceding the current
scan position (needed for a leading `\b`) and the remaining text, and
returns the length of the (nonempty) match, if any.  `substAux` scans left
to right; on a match it splices the replacement and resumes after the
match (matching Python's non-overlapping `re.sub`), otherwise it advances
one character. -/

def substAux (m : Bool → List Char → Option Nat) (repl : List Char) :
    Nat → Bool → List Char → List Char
  | 0, _, s => s
  | _ + 1, _, [] => []
  | fuel + 1, pw, c :: cs =>
    match m pw (c :: cs) with
    | some n =>
      if 0 < n then
        repl ++ substAux m repl fuel (wordAt (c :: cs) (n - 1)) ((c :: cs).drop n)
      else
        c :: substAux m repl fuel (isWordC c) cs
    | none => c :: substAux m repl fuel (isWordC c) cs

/-- One `re.sub(pattern, repl, s)` pass, for the matcher embedding `pattern`. -/
def subst (m : Bool → List Char → Option Nat) (repl : String) (s : List Char) :
    List Char :=
  substAux m repl.data s.length false s

/-! ## The six redaction patterns of `clean_text` -/

/-- `\b[A-Z][a-z]+\s+[A-Z][a-z]+\b` (two capitalised words → `[NAME]`).
All its character classes are pairwise disjoint at the places where
backtracking could occur, so greedy maximal runs are exact. -/
def mName (pw : Bool) (s : List Char) : Option Nat :=
  match s with
  | [] => none
  | c :: cs =>
    if pw != isWordC c then
      if isUpperC c then
        let l1 := runLen isLowerC cs
        if l1 = 0 then none else
        let w := runLen isSpaceC (cs.drop l1)
        if w = 0 then none else
        match cs.drop (l1 + w) with
        | d :: ds =>
          if isUpperC d then
            let l2 := runLen isLowerC ds
            if l2 = 0 then none else
            let n := 1 + l1 + w + 1 + l2
            if bAfter s n then some n else none
          else none
        | [] => none
      else none
    else none

/-- The class of `\b[A-Z0-9]{3,}\b`. -/
def isIdC (c : Char) : Bool := isUpperC c || isDigitC c

/-- `\b[A-Z0-9]{3,}\b` (ID-like tokens → `[ID]`).  Backtracking a shorter
run can never restore the trailing `\b` (every class character is a word
character), so the maximal run is the only candidate. -/
def mID (pw : Bool) (s : List Char) : Option Nat :=
  match s with
  | [] => none
  | c :: _ =>
    if pw != isWordC c then
      let n := runLen isIdC s
      if 3 ≤ n ∧ bAfter s n then some n else none
    else none

/-- `\b\d{3,}\b` (bare digit runs → `[NUMBER]`); same reasoning as `mID`. -/
def mNum (pw : Bool) (s : List Char) : Option Nat :=
  match s with
  | [] => none
  | c :: _ =>
    if pw != isWordC c then
      let n := runLen isDigitC s
      if 3 ≤ n ∧ bAfter s n then some n else none
    else none

/-- `\d{1,2}/`: greedy two digits then the slash, backtracking to one
digit (a third digit before the slash makes both alternatives fail). -/
def digitsSlash : List Char → Option Nat
  | a :: b :: c :: _ =>
    if isDigitC a then
      if isDigitC b then (if c = '/' then some 3 else none)
      else if b = '/' then some 2 else none
    else none
  | a :: b :: [] => if isDigitC a && b = '/' then some 2 else none
  | _ => none

/-- `\b\d{1,2}/\d{1,2}/\d{2,4}\b` (numeric dates → `[DATE]`).  The year
part accepts the maximal digit run when its length is between 2 and 4 (a
longer run leaves a digit after any 2–4 prefix, killing the `\b`). -/
def mDateSlash (pw : Bool) (s : List Char) : Option Nat :=
  match s with
  | [] => none
  | c :: _ =>
    if pw != isWordC c then
      match digitsSlash s with
      | some n1 =>
        match digitsSlash (s.drop n1) with
        | some n2 =>
          let s2 := s.drop (n1 + n2)
          let r := runLen isDigitC s2
          if 2 ≤ r ∧ r ≤ 4 ∧ bAfter s2 r then some (n1 + n2 + r) else none
        | none => none
      | none => none
    else none

/-- The twelve month abbreviations of the month-name date pattern. -/
def monthAbbrevs : List String :=
  ["Jan", "Feb", "Mar", "Apr", "May", "Jun", "Jul", "Aug", "Sep", "Oct", "Nov", "Dec"]

/-- `\b(?:Jan|…|Dec)[a-z]*\s+\d{1,2},?\s+\d{4}\b` (month-name dates →
`[DATE]`). -/
def mDateMonth (pw : Bool) (s : List Char) : Option Nat :=
  match s with
  | [] => none
  | c :: _ =>
    if pw != isWordC c then
      if monthAbbrevs.any (fun m => m.data.isPrefixOf s) then
        let l := runLen isLowerC (s.drop 3)
        let p1 := 3 + l
        let w := runLen isSpaceC (s.drop p1)
        if w = 0 then none else
        let p2 := p1 + w
        let d := runLen isDigitC (s.drop p2)
        if d = 0 ∨ 3 ≤ d then none else
        let p3 := p2 + d
        let p4 := match s.drop p3 with
                  | ',' :: _ => p3 + 1
                  | _ => p3
        let w2 := runLen isSpaceC (s.drop p4)
        if w2 = 0 then none else
        let p5 := p4 + w2
        let y := runLen isDigitC (s.drop p5)
        if 4 ≤ y ∧ bAfter (s.drop p5) 4 then some (p5 + 4) else none
      else none
    else none

/-- Local-part class of the email pattern: `[A-Za-z0-9._%+-]`. -/
def isLocalC (c : Char) : Bool :=
  isUpperC c || isLowerC c || isDigitC c || c = '.' || c = '_' || c = '%' || c = '+' || c = '-'

/-- Domain class of the email pattern: `[A-Za-z0-9.-]`. -/
def isDomC (c : Char) : Bool :=
  isUpperC c || isLowerC c || isDigitC c || c = '.' || c = '-'

/-- Top-level-domain class of the email pattern, `[A-Z|a-z]` (the literal
`|` inside the class is part of the source's pattern). -/
def isTldC (c : Char) : Bool := isUpperC c || isLowerC c || c = '|'

/-- Greedy `[A-Z|a-z]{2,}\b` at the head of `s3`: try the lengths from the
maximal class run downward, keeping the first (longest) length `≥ 2` whose
trailing `\b` holds. -/
def findTldAux : Nat → List Char → Option Nat
  | 0, _ => none
  | m + 1, s3 =>
    if 2 ≤ m + 1 ∧ bAfter s3 (m + 1) then some (m + 1) else findTldAux m s3

/-- Backtracking split of `[A-Za-z0-9.-]+\.[A-Z|a-z]{2,}\b` after the `@`:
the domain part is tried greedily from the longest length downward; at
each candidate length the next character must be the literal dot, then the
TLD is matched greedily. -/
def emailDomAux : Nat → List Char → Option Nat
  | 0, _ => none
  | k + 1, s2 =>
    match s2.drop (k + 1) with
    | '.' :: rest =>
      (match findTldAux (runLen isTldC rest) rest with
       | some m => some (k + 1 + 1 + m)
       | none => emailDomAux k s2)
    | _ => emailDomAux k s2

/-- `\b[A-Za-z0-9._%+-]+@[A-Za-z0-9.-]+\.[A-Z|a-z]{2,}\b` (emails →
`[EMAIL]`). -/
def mEmail (pw : Bool) (s : List Char) : Option Nat :=
  match s with
  | [] => none
  | c :: _ =>
    if pw != isWordC c then
      let l := runLen isLocalC s
      if l = 0 then none else
      match s.drop l with
      | '@' :: s2 =>
        let dr := runLen isDomC s2
        (match emailDomAux (dr - 1) s2 with
         | some d => some (l + 1 + d)
         | none => none)
      | _ => none
    else none

/-- `\b\d{3}[-.]?\d{3}[-.]?\d{4}\b` (phone-shaped digit groups →
`[PHONE]`).  Each optional separator is consumed exactly when present
(skipping a present separator always fails on the following `\d`). -/
def mPhone (pw : Bool) (s : List Char) : Option Nat :=
  match s with
  | [] => none
  | c :: _ =>
    if pw != isWordC c then
      if 3 ≤ runLen isDigitC s then
        let p2 := match s.drop 3 with
                  | c1 :: _ => if c1 = '-' ∨ c1 = '.' then 4 else 3
                  | [] => 3
        if 3 ≤ runLen isDigitC (s.drop p2) then
          let p3 := p2 + 3
          let p4 := match s.drop p3 with
                    | c2 :: _ => if c2 = '-' ∨ c2 = '.' then p3 + 1 else p3
                    | [] => p3
          if 4 ≤ runLen isDigitC (s.drop p4) ∧ bAfter (s.drop p4) 4
          then some (p4 + 4) else none
        else none
      else none
    else none

/-! ## Whitespace normalisation and `clean_text` -/

/-- Python `str.split()` (no argument): the maximal non-whitespace chunks,
with no empty pieces. -/
def pySplitAux : Nat → List Char → List (List Char)
  | 0, _ => []
  | _ + 1, [] => []
  | fuel + 1, c :: cs =>
    if isSpaceC c then pySplitAux fuel cs
    else
      let w := runLen (fun d => !isSpaceC d) (c :: cs)
      (c :: cs).take w :: pySplitAux fuel ((c :: cs).drop w)

/-- Python `s.split()` on a string. -/
def pySplit (s : String) : List String :=
  (pySplitAux s.data.length s.data).map (fun l => String.mk l)

/-- Python `' '.join(text.split())`: collapse whitespace runs to single
spaces and trim. -/
def normWs (s : List Char) : List Char :=
  List.intercalate [' '] (pySplitAux s.length s)

/-- `MedicalComplaintPreprocessor.clean_text`: the source's six redaction
substitutions (names, IDs, digit runs, numeric dates, month-name dates,
emails, phones) applied in order, then whitespace normalisation.  The
empty string returns immediately (`if not text: return ""`). -/
def clean_text (text : String) : String :=
  if text = "" then "" else
  let t1 := subst mName "[NAME]" text.data
  let t2 := subst mID "[ID]" t1
  let t3 := subst mNum "[NUMBER]" t2
  let t4 := subst mDateSlash "[DATE]" t3
  let t5 := subst mDateMonth "[DATE]" t4
  let t6 := subst mEmail "[EMAIL]" t5
  let t7 := subst mPhone "[PHONE]" t6
  String.mk (normWs t7)

/-! ## Substring search and lowering (Python `in` and `str.lower`) -/

/-- Does `needle` occur as a contiguous substring of `hay` (Python's
`needle in hay`; the empty needle always occurs)? -/
def containsSub : List Char → List Char → Bool
  | _, [] => true
  | [], _ :: _ => false
  | c :: cs, n :: ns => List.isPrefixOf (n :: ns) (c :: cs) || containsSub cs (n :: ns)

/-- Python `needle in hay` on strings. -/
def strContains (hay needle : String) : Bool := containsSub hay.data needle.data

/-- Python `str.lower` (ASCII case folding, sufficient for the modelled
inputs). -/
def strLower (s : String) : String := String.mk (s.data.map Char.toLower)

/-! ## `MedicalComplaintPreprocessor`: indicator lists -/

def conduct_indicators : List String :=
  ["unprofessional", "inappropriate", "boundary", "ethics",
   "misconduct", "behavior", "attitude", "communication",
   "disrespectful", "harassment", "discrimination", "rude",
   "dismissive", "hostile", "aggressive"]

def competence_indicators : List String :=
  ["misdiagnosis", "error", "mistake", "incorrect", "failed",
   "negligent", "competency", "skill", "knowledge", "treatment",
   "procedure", "assessment", "clinical", "wrong", "incompetent",
   "malpractice", "oversight"]

def health_indicators : List String :=
  ["impaired", "addiction", "mental health", "substance",
   "alcohol", "fitness", "illness", "condition", "wellbeing",
   "psychological", "psychiatric", "tired", "exhausted",
   "unstable", "intoxicated"]

def severity_high : List String := ["death", "serious", "critical", "emergency", "urgent"]

def severity_medium : List String := ["concerning", "repeated", "multiple", "pattern"]

def severity_low : List String := ["minor", "slight", "small"]

/-- `sum(1 for term in terms if term in cleaned)`. -/
def countHits (terms : List String) (cleaned : String) : Nat :=
  (terms.filter (fun term => strContains cleaned term)).length

/-- `any(w in cleaned for w in ws)`. -/
def anyHit (ws : List String) (cleaned : String) : Bool :=
  ws.any (fun w => strContains cleaned w)

/-- Is `c` one of `.`, `!`, `?` (the class of `re.split(r'[.!?]+', text)`)? -/
def isPunctC (c : Char) : Bool := c = '.' || c = '!' || c = '?'

/-- `re.split(r'[.!?]+', text)`: split at maximal runs of sentence
punctuation, keeping empty pieces (Python's `re.split` does). -/
def splitPunctAux : Nat → List Char → List Char → List (List Char)
  | 0, cur, s => [cur.reverse ++ s]
  | _ + 1, cur, [] => [cur.reverse]
  | fuel + 1, cur, c :: cs =>
    if isPunctC c then cur.reverse :: splitPunctAux fuel [] (cs.dropWhile isPunctC)
    else splitPunctAux fuel (c :: cur) cs

/-- `re.split(r'[.!?]+', text)` on a string. -/
def rePunctSplit (text : String) : List String :=
  (splitPunctAux (text.data.length + 1) [] text.data).map (fun l => String.mk l)

/-- The features dictionary returned by
`MedicalComplaintPreprocessor.extract_features`.  Python's `int(bool)`
flags are kept as `Bool`; float ratios are exact rationals. -/
structure Features where
  text_length : Nat
  sentence_count : Nat
  conduct_score : Nat
  competence_score : Nat
  health_score : Nat
  severity_high_count : Nat
  severity_medium_count : Nat
  severity_low_count : Nat
  has_temporal_pattern : Bool
  has_progression : Bool
  is_urgent : Bool
  emotional_words : Nat
  conduct_ratio : ℚ
  competence_ratio : ℚ
  health_ratio : ℚ
  estimated_severity : String
deriving DecidableEq

/-- `MedicalComplaintPreprocessor.extract_features`, translated line by
line: the category and severity counts are substring hits against the
cleaned lower-cased text; `text_length` is the whitespace word count of
that cleaned text (`words = cleaned.split()`), while `sentence_count`
splits the raw input; ratios divide by the summed category scores when
positive and are all zero otherwise. -/
def extract_features (text : String) : Features :=
  let cleaned := strLower (clean_text text)
  let words := pySplit cleaned
  let conduct_score := countHits conduct_indicators cleaned
  let competence_score := countHits competence_indicators cleaned
  let health_score := countHits health_indicators cleaned
  let severity_high_count := countHits severity_high cleaned
  let severity_medium_count := countHits severity_medium cleaned
  let severity_low_count := countHits severity_low cleaned
  let has_temporal_pattern :=
    anyHit ["repeatedly", "again", "multiple times", "pattern", "twice", "several"] cleaned
  let has_progression :=
    anyHit ["initially", "but then", "at first", "later", "eventually"] cleaned
  let is_urgent := anyHit ["urgent", "emergency", "immediate", "asap"] cleaned
  let emotional_words :=
    countHits ["angry", "upset", "frustrated", "worried", "scared", "anxious"] cleaned
  let total_score := conduct_score + competence_score + health_score
  let conduct_ratio : ℚ :=
    if 0 < total_score then (conduct_score : ℚ) / (total_score : ℚ) else 0
  let competence_ratio : ℚ :=
    if 0 < total_score then (competence_score : ℚ) / (total_score : ℚ) else 0
  let health_ratio : ℚ :=
    if 0 < total_score then (health_score : ℚ) / (total_score : ℚ) else 0
  let estimated_severity :=
    if 0 < severity_high_count then "HIGH"
    else if 0 < severity_medium_count || has_temporal_pattern then "MEDIUM"
    else "LOW"
  { text_length := words.length
    sentence_count := (rePunctSplit text).length
    conduct_score, competence_score, health_score
    severity_high_count, severity_medium_count, severity_low_count
    has_temporal_pattern, has_progression, is_urgent, emotional_words
    conduct_ratio, competence_ratio, health_ratio, estimated_severity }

/-! ## `MediTriageClassifier`: data model -/

/-- `ComplaintCategory` enumeration of the classifier module. -/
inductive ComplaintCategory where
  | CONDUCT
  | COMPETENCE
  | HEALTH
  | NEEDS_REVIEW
  | MONITORING
  | UNKNOWN
deriving DecidableEq

/-- The `.value` string of a `ComplaintCategory` member. -/
def ComplaintCategory.value : ComplaintCategory → String
  | .CONDUCT => "CONDUCT"
  | .COMPETENCE => "COMPETENCE"
  | .HEALTH => "HEALTH"
  | .NEEDS_REVIEW => "NEEDS_REVIEW"
  | .MONITORING => "MONITORING"
  | .UNKNOWN => "UNKNOWN"

/-- `SeverityLevel` enumeration of the classifier module. -/
inductive SeverityLevel where
  | HIGH
  | MEDIUM
  | LOW
deriving DecidableEq

/-- The `.value` string of a `SeverityLevel` member. -/
def SeverityLevel.value : SeverityLevel → String
  | .HIGH => "HIGH"
  | .MEDIUM => "MEDIUM"
  | .LOW => "LOW"

/-- The `ClassificationResult` dataclass.  `confidence` and
`processing_time` are Python floats, modelled as exact rationals; the
wall-clock `processing_time` written by `classify_single` is not modelled
and stays at its dataclass default `0.0`. -/
structure ClassificationResult where
  category : ComplaintCategory
  confidence : ℚ
  reasoning : String
  keywords : List String
  severity : SeverityLevel
  requires_human_review : Bool
  suggested_actions : List String
  secondary_category : Option ComplaintCategory := none
  processing_time : ℚ := 0
deriving DecidableEq

/-! ## `_classify_with_rules` -/

def conduct_keywords : List String :=
  ["rude", "inappropriate", "unprofessional", "dismissive",
   "disrespectful", "harassment", "boundary", "behavior"]

def competence_keywords : List String :=
  ["error", "mistake", "misdiagnos", "wrong", "incorrect",
   "failed", "incompetent", "negligent"]

def health_keywords : List String :=
  ["impaired", "drunk", "intoxicated", "substance", "unfit",
   "unstable", "mental health", "addiction"]

/-- The keyword-collecting loop of `_classify_with_rules`: the keywords of
`kws` found in `text_lower`, in list order (each scoring loop appends the
keywords it matches, so the found list is the filtered keyword list). -/
def hitsOf (kws : List String) (text_lower : String) : List String :=
  kws.filter (fun k => strContains text_lower k)

/-- Severity keyword groups of `_classify_with_rules`
(`severity_keywords` dict, insertion order high, medium, low). -/
def severity_high_keywords : List String :=
  ["death", "serious", "emergency", "critical", "dangerous"]

def severity_medium_keywords : List String :=
  ["repeated", "multiple", "pattern", "concerning"]

def severity_low_keywords : List String := ["minor", "slight", "small"]

def ambiguous_phrases : List String :=
  ["not sure", "maybe", "possibly", "might be", "unclear"]

/-- The category / confidence / reasoning / first-action choice of
`_classify_with_rules` (the `max_score` if-chain, lines 248–269 of the
source): the first branch needs `conduct` strictly above both others, the
second needs `competence` strictly above `health`, else health wins. -/
structure CatChoice where
  category : ComplaintCategory
  confidence : ℚ
  reasoning : String
  action : String
deriving DecidableEq

def categorize (conduct_score competence_score health_score : Nat)
    (keywords_found : List String) : CatChoice :=
  if max conduct_score (max competence_score health_score) = 0 then
    { category := .NEEDS_REVIEW, confidence := 3/10,
      reasoning := "No clear indicators found. Requires human review.",
      action := "Manual review required" }
  else if conduct_score > competence_score ∧ conduct_score > health_score then
    { category := .CONDUCT,
      confidence := min (9/10) (1/2 + (conduct_score : ℚ) * (1/10)),
      reasoning := "Behavioral/conduct indicators found: "
        ++ String.intercalate ", " (keywords_found.take 3),
      action := "Review professional standards policy" }
  else if competence_score > health_score then
    { category := .COMPETENCE,
      confidence := min (9/10) (1/2 + (competence_score : ℚ) * (1/10)),
      reasoning := "Clinical competence concerns identified: "
        ++ String.intercalate ", " (keywords_found.take 3),
      action := "Clinical review recommended" }
  else
    { category := .HEALTH,
      confidence := min (9/10) (1/2 + (health_score : ℚ) * (1/10)),
      reasoning := "Health/fitness concerns detected: "
        ++ String.intercalate ", " (keywords_found.take 3),
      action := "Immediate fitness assessment required" }

/-- `MediTriageClassifier._classify_with_rules`.  The severity loop over
the `severity_keywords` dict (insertion order high, medium, low, with the
medium assignment guarded by `severity != HIGH` and no assignment for
low) flattens to the if-chain below; a high hit inserts the URGENT action
at position 0 of the single-element action list. -/
def _classify_with_rules (complaint_text : String) : ClassificationResult :=
  let text_lower := strLower complaint_text
  let conductHits := hitsOf conduct_keywords text_lower
  let competenceHits := hitsOf competence_keywords text_lower
  let healthHits := hitsOf health_keywords text_lower
  let keywords_found := conductHits ++ competenceHits ++ healthHits
  let choice := categorize conductHits.length competenceHits.length healthHits.length
    keywords_found
  let highHit := anyHit severity_high_keywords text_lower
  let medHit := anyHit severity_medium_keywords text_lower
  let severity := if highHit then SeverityLevel.HIGH
                  else if medHit then SeverityLevel.MEDIUM
                  else SeverityLevel.LOW
  let suggested_actions :=
    if highHit then ["URGENT: Immediate action required", choice.action]
    else [choice.action]
  let requires_review :=
    anyHit ambiguous_phrases text_lower || decide (choice.confidence < 3/5)
  { category := choice.category
    confidence := choice.confidence
    reasoning := choice.reasoning
    keywords := keywords_found.take 5
    severity := severity
    requires_human_review := requires_review
    suggested_actions := suggested_actions
    secondary_category := none
    processing_time := 0 }

/-- Scores used to state properties of `_classify_with_rules`. -/
def conduct_score (t : String) : Nat := (hitsOf conduct_keywords (strLower t)).length

def competence_score (t : String) : Nat := (hitsOf competence_keywords (strLower t)).length

def health_score (t : String) : Nat := (hitsOf health_keywords (strLower t)).length

/-! ## `classify_single` and `classify_batch` -/

/-- An opaque context mapping (`complaint.get('context', {})`), passed
through to the external model. -/
def Ctx := List (String × String)

/-- The external-model path `_classify_with_ai`, abstracted: any run
either yields a parsed `ClassificationResult` or raises (malformed JSON,
unknown enum member, network failure …), modelled as `Except` with the
exception message. -/
def AIClient := String → Ctx → Except String ClassificationResult

/-- `MediTriageClassifier.classify_single`: try the AI path when a client
is configured, catch any exception it raises and fall back to
`_classify_with_rules`; with no client, go straight to the rules.
(The end-to-end `processing_time` stamping is wall-clock and is not
modelled.) -/
def classify_single (client : Option AIClient) (complaint_text : String)
    (context : Ctx) : ClassificationResult :=
  match client with
  | some ai =>
    match ai complaint_text context with
    | Except.ok result => result
    | Except.error _ => _classify_with_rules complaint_text
  | none => _classify_with_rules complaint_text

/-- An input complaint dictionary: the four keys `classify_batch` reads,
each optional (`.get` with a default). -/
structure Complaint where
  id? : Option String := none
  text? : Option String := none
  context? : Option Ctx := none
  category? : Option String := none

/-- The `classification` sub-dictionary of a successful batch record. -/
structure ClassificationOut where
  primary_category : String
  secondary_category : Option String
  confidence : ℚ
  severity : String
  requires_review : Bool
deriving DecidableEq

/-- The `analysis` sub-dictionary of a successful batch record. -/
structure AnalysisOut where
  reasoning : String
  keywords : List String
  suggested_actions : List String
  processing_time : ℚ
deriving DecidableEq

/-- A batch output record: either the populated classification shape or
the error shape `{complaint_id, error}` (timestamps are wall-clock and
not modelled).  Absent dictionary keys are `none`. -/
structure ResultRecord where
  complaint_id : String := ""
  original_text? : Option String := none
  classification? : Option ClassificationOut := none
  analysis? : Option AnalysisOut := none
  actual_category? : Option String := none
  error? : Option String := none
deriving DecidableEq

/-- Python `f'{idx:04d}'`: decimal digits zero-padded to width 4. -/
def pad4 (idx : Nat) : String :=
  let s := toString idx
  String.mk (List.replicate (4 - s.length) '0') ++ s

/-- The `classification` block built from a `ClassificationResult`. -/
def mkClassificationOut (result : ClassificationResult) : ClassificationOut :=
  { primary_category := result.category.value
    secondary_category := result.secondary_category.map ComplaintCategory.value
    confidence := result.confidence
    severity := result.severity.value
    requires_review := result.requires_human_review }

/-- The loop body of `classify_batch` for the complaint at index `idx`:
read id / text / context with their defaults, run the per-item
classification step, and build either the populated record or — when the
step raises — the error record carrying the id and message.  The step is
a parameter of type `String → Ctx → Except String ClassificationResult`
so that an exception of any kind raised while processing the item
(`classify_single` and everything around it) is representable. -/
def processOne (classify : String → Ctx → Except String ClassificationResult)
    (idx : Nat) (complaint : Complaint) : ResultRecord :=
  let complaint_id := complaint.id?.getD ("COMPLAINT_" ++ pad4 idx)
  let complaint_text := complaint.text?.getD ""
  let context := complaint.context?.getD []
  match classify complaint_text context with
  | Except.ok result =>
    { complaint_id := complaint_id
      original_text? := some complaint_text
      classification? := some (mkClassificationOut result)
      analysis? := some { reasoning := result.reasoning
                          keywords := result.keywords
                          suggested_actions := result.suggested_actions
                          processing_time := result.processing_time }
      actual_category? := complaint.category?
      error? := none }
  | Except.error e =>
    { complaint_id := complaint_id, error? := some e }

/-- The sequential loop of `classify_batch` starting at index `idx`
(the rate-limiting sleep between items is wall-clock and not modelled). -/
def classify_batch_go (classify : String → Ctx → Except String ClassificationResult)
    (idx : Nat) : List Complaint → List ResultRecord
  | [] => []
  | c :: cs => processOne classify idx c :: classify_batch_go classify (idx + 1) cs

/-- `MediTriageClassifier.classify_batch`. -/
def classify_batch (classify : String → Ctx → Except String ClassificationResult)
    (complaints : List Complaint) : List ResultRecord :=
  classify_batch_go classify 0 complaints

/-! ## `evaluate_accuracy` -/

/-- Does a record qualify as a successful classification
(`'classification' in r and 'actual_category' in r`)? -/
def hasBoth (r : ResultRecord) : Bool :=
  r.classification?.isSome && r.actual_category?.isSome

/-- The metrics dictionary of `evaluate_accuracy`.  `category_metrics`
maps an actual label to (accuracy, total, correct); the two histogram
dictionaries are association lists in first-insertion order, as Python
dicts are. -/
structure Metrics where
  total_processed : Nat
  successful_classifications : Nat
  errors : Nat
  overall_accuracy : ℚ
  category_metrics : List (String × ℚ × Nat × Nat)
  confidence_high : Nat
  confidence_medium : Nat
  confidence_low : Nat
  severity_distribution : List (String × Nat)
  review_required : Nat
deriving DecidableEq

/-- Increment the count of `k` in an insertion-ordered association list,
appending `(k, 1)` when absent (Python `d[k] = d.get(k, 0) + 1`). -/
def bumpCount (k : String) : List (String × Nat) → List (String × Nat)
  | [] => [(k, 1)]
  | (k', n) :: rest =>
    if k' = k then (k', n + 1) :: rest else (k', n) :: bumpCount k rest

/-- Update the per-category stats `(total, correct)` for actual label `k`
(initialising to `{'total': 0, 'correct': 0}` when absent). -/
def bumpCat (k : String) (correct : Bool) :
    List (String × Nat × Nat) → List (String × Nat × Nat)
  | [] => [(k, 1, if correct then 1 else 0)]
  | (k', t, c) :: rest =>
    if k' = k then (k', t + 1, if correct then c + 1 else c) :: rest
    else (k', t, c) :: bumpCat k correct rest

/-- The fold state of the `for result in successful` loop. -/
structure EvalState where
  correct : Nat := 0
  category_stats : List (String × Nat × Nat) := []
  conf_high : Nat := 0
  conf_medium : Nat := 0
  conf_low : Nat := 0
  review_required : Nat := 0
  severity_distribution : List (String × Nat) := []

/-- One iteration of the `evaluate_accuracy` loop (only reached for
records with both keys; others leave the state unchanged). -/
def stepEval (st : EvalState) (r : ResultRecord) : EvalState :=
  match r.classification?, r.actual_category? with
  | some cl, some actual =>
    let isCorrect := cl.primary_category = actual
    { correct := st.correct + (if isCorrect then 1 else 0)
      category_stats := bumpCat actual isCorrect st.category_stats
      conf_high := st.conf_high + (if 4/5 < cl.confidence then 1 else 0)
      conf_medium :=
        st.conf_medium + (if ¬(4/5 < cl.confidence) ∧ 3/5 ≤ cl.confidence then 1 else 0)
      conf_low :=
        st.conf_low + (if ¬(4/5 < cl.confidence) ∧ ¬(3/5 ≤ cl.confidence) then 1 else 0)
      review_required := st.review_required + (if cl.requires_review then 1 else 0)
      severity_distribution := bumpCount cl.severity st.severity_distribution }
  | _, _ => st

/-- `MediTriageClassifier.evaluate_accuracy`: count the records carrying
both a classification and a ground-truth label as successful, the rest as
errors, and compute the accuracy metrics over the successful ones,
returning the initial (all-zero) metrics early when none qualify. -/
def evaluate_accuracy (results : List ResultRecord) : Metrics :=
  let successful := results.filter hasBoth
  let base : Metrics :=
    { total_processed := results.length
      successful_classifications := successful.length
      errors := results.length - successful.length
      overall_accuracy := 0
      category_metrics := []
      confidence_high := 0
      confidence_medium := 0
      confidence_low := 0
      severity_distribution := []
      review_required := 0 }
  if successful.isEmpty then base
  else
    let st := successful.foldl stepEval {}
    { base with
      overall_accuracy := (st.correct : ℚ) / (successful.length : ℚ)
      category_metrics :=
        st.category_stats.map (fun p => (p.1, ((p.2.2 : ℚ) / (p.2.1 : ℚ), p.2.1, p.2.2)))
      confidence_high := st.conf_high
      confidence_medium := st.conf_medium
      confidence_low := st.conf_low
      severity_distribution := st.severity_distribution
      review_required := st.review_required }

/-! ## Demonstration inputs used by the witnesses -/

/-- A provider client whose every call raises (models a client configured
to always throw / return malformed JSON). -/
def failingClient : AIClient := fun _ _ => Except.error "boom"

/-- A per-item classification step that raises exactly on the third demo
complaint's text and otherwise returns the rule-based result. -/
def demoClassify : String → Ctx → Except String ClassificationResult := fun t _ =>
  if t = "item three text" then Except.error "simulated failure"
  else Except.ok (_classify_with_rules t)

def demoThird : Complaint := { id? := some "C003", text? := some "item three text" }

def demoComplaints : List Complaint :=
  [{ id? := some "C001", text? := some "The doctor was rude", category? := some "CONDUCT" },
   { id? := some "C002", text? := some "A mistake in treatment" },
   demoThird,
   { id? := some "C004", text? := some "The physician was impaired" },
   { text? := some "All fine" }]

/-! ## Helper lemmas -/

theorem categorize_confidence_bounds (c k h : Nat) (kws : List String) :
    0 ≤ (categorize c k h kws).confidence ∧ (categorize c k h kws).confidence ≤ 1 := by
  unfold categorize
  split_ifs <;> refine ⟨?_, ?_⟩
  · norm_num
  · norm_num
  all_goals first
    | exact le_min (by norm_num) (by positivity)
    | exact le_trans (min_le_left _ _) (by norm_num)

theorem categorize_category_ne_unknown (c k h : Nat) (kws : List String) :
    (categorize c k h kws).category ≠ ComplaintCategory.UNKNOWN := by
  unfold categorize
  split_ifs <;> simp

theorem rules_category_ne_unknown (t : String) :
    (_classify_with_rules t).category ≠ ComplaintCategory.UNKNOWN :=
  categorize_category_ne_unknown _ _ _ _

theorem classify_batch_go_length (f : String → Ctx → Except String ClassificationResult)
    (idx : Nat) (cs : List Complaint) :
    (classify_batch_go f idx cs).length = cs.length := by
  induction cs generalizing idx with
  | nil => rfl
  | cons c cs ih => simp [classify_batch_go, ih]

theorem classify_batch_go_getElem? (f : String → Ctx → Except String ClassificationResult)
    (idx i : Nat) (cs : List Complaint) :
    (classify_batch_go f idx cs)[i]? = cs[i]?.map (processOne f (idx + i)) := by
  induction cs generalizing idx i with
  | nil => simp [classify_batch_go]
  | cons c cs ih =>
    cases i with
    | zero => simp [classify_batch_go]
    | succ j =>
      have hidx : idx + (j + 1) = idx + 1 + j := by omega
      simp only [classify_batch_go, List.getElem?_cons_succ, hidx, ih]

/-- Branch description of `categorize`: the same if-chain, read off field
by field. -/
theorem categorize_spec (c k h : Nat) (kws : List String) :
    if max c (max k h) = 0 then
      (categorize c k h kws).category = ComplaintCategory.NEEDS_REVIEW ∧
      (categorize c k h kws).confidence = 3/10 ∧
      (categorize c k h kws).action = "Manual review required"
    else if c > k ∧ c > h then
      (categorize c k h kws).category = ComplaintCategory.CONDUCT ∧
      (categorize c k h kws).confidence = min (9/10) (1/2 + (c : ℚ) * (1/10))
    else if k > h then
      (categorize c k h kws).category = ComplaintCategory.COMPETENCE ∧
      (categorize c k h kws).confidence = min (9/10) (1/2 + (k : ℚ) * (1/10))
    else
      (categorize c k h kws).category = ComplaintCategory.HEALTH ∧
      (categorize c k h kws).confidence = min (9/10) (1/2 + (h : ℚ) * (1/10)) := by
  unfold categorize
  split_ifs with h1 h2 h3
  · exact ⟨rfl, rfl, rfl⟩
  · exact ⟨rfl, rfl⟩
  · exact ⟨rfl, rfl⟩
  · exact ⟨rfl, rfl⟩

/-- The keyword list given to `categorize` inside `_classify_with_rules`. -/
def keywordsFound (t : String) : List String :=
  hitsOf conduct_keywords (strLower t) ++ hitsOf competence_keywords (strLower t)
    ++ hitsOf health_keywords (strLower t)

/-- The branch-selected action of the rule scorer is always among the
returned suggested actions (it is either the whole list or preceded only
by the URGENT prefix). -/
theorem choice_action_mem (t : String) :
    (categorize (conduct_score t) (competence_score t) (health_score t)
      (keywordsFound t)).action ∈ (_classify_with_rules t).suggested_actions := by
  show (categorize (conduct_score t) (competence_score t) (health_score t)
      (keywordsFound t)).action ∈
    (if anyHit severity_high_keywords (strLower t) then
      ["URGENT: Immediate action required",
       (categorize (conduct_score t) (competence_score t) (health_score t)
         (keywordsFound t)).action]
     else [(categorize (conduct_score t) (competence_score t) (health_score t)
         (keywordsFound t)).action])
  split <;> simp

/-- The raw category counts and ratio formulas of `extract_features`,
read off the definition. -/
theorem extract_features_ratio_eq (t : String) :
    (extract_features t).conduct_score = countHits conduct_indicators (strLower (clean_text t)) ∧
    (extract_features t).competence_score =
      countHits competence_indicators (strLower (clean_text t)) ∧
    (extract_features t).health_score = countHits health_indicators (strLower (clean_text t)) ∧
    (extract_features t).conduct_ratio =
      (if 0 < (extract_features t).conduct_score + (extract_features t).competence_score
          + (extract_features t).health_score then
        ((extract_features t).conduct_score : ℚ) /
          (((extract_features t).conduct_score + (extract_features t).competence_score
            + (extract_features t).health_score : ℕ) : ℚ)
      else 0) ∧
    (extract_features t).competence_ratio =
      (if 0 < (extract_features t).conduct_score + (extract_features t).competence_score
          + (extract_features t).health_score then
        ((extract_features t).competence_score : ℚ) /
          (((extract_features t).conduct_score + (extract_features t).competence_score
            + (extract_features t).health_score : ℕ) : ℚ)
      else 0) ∧
    (extract_features t).health_ratio =
      (if 0 < (extract_features t).conduct_score + (extract_features t).competence_score
          + (extract_features t).health_score then
        ((extract_features t).health_score : ℚ) /
          (((extract_features t).conduct_score + (extract_features t).competence_score
            + (extract_features t).health_score : ℕ) : ℚ)
      else 0) :=
  ⟨rfl, rfl, rfl, rfl, rfl, rfl⟩

theorem length_filter_add_length_filter_not {α : Type} (p : α → Bool) (l : List α) :
    (l.filter p).length + (l.filter (fun a => !(p a))).length = l.length := by
  induction l with
  | nil => rfl
  | cons a l ih =>
    by_cases h : p a <;> simp [List.filter_cons, h] <;> omega

/-! ## The claims -/

/-- Claim C1: when a provider client is configured and the external-model
path raises any exception, `classify_single` catches it and returns the
rule-based fallback result; the exception is never propagated, and the
returned category is never `UNKNOWN` (the rule-based scorer cannot
produce it). -/
theorem C1_provider_fallback (ai : AIClient) (t : String) (ctx : Ctx) (e : String)
    (h : ai t ctx = Except.error e) :
    classify_single (some ai) t ctx = _classify_with_rules t ∧
    (classify_single (some ai) t ctx).category ≠ ComplaintCategory.UNKNOWN := by
  have h1 : classify_single (some ai) t ctx = _classify_with_rules t := by
    simp [classify_single, h]
  exact ⟨h1, h1 ▸ rules_category_ne_unknown t⟩

/-- Witness for C1: a client that always throws still yields the
fully-populated rule-based result. -/
theorem C1_provider_fallback_witness :
    classify_single (some failingClient) "The doctor was rude" [] =
      _classify_with_rules "The doctor was rude" ∧
    (classify_single (some failingClient) "The doctor was rude" []).category ≠
      ComplaintCategory.UNKNOWN :=
  C1_provider_fallback failingClient "The doctor was rude" [] "boom" rfl

/-- Claim C2: `classify_batch` returns exactly one record per complaint in
input order; when processing item `i` raises, that item's record is the
error record carrying the item's complaint id and the error message, and
when it succeeds the record carries a populated classification — so one
failing item never aborts the batch. -/
theorem C2_batch_isolation (f : String → Ctx → Except String ClassificationResult)
    (cs : List Complaint) (i : Nat) (c : Complaint) (h : cs[i]? = some c) :
    (classify_batch f cs).length = cs.length ∧
    (classify_batch f cs)[i]? = some (processOne f i c) ∧
    (processOne f i c).complaint_id = c.id?.getD ("COMPLAINT_" ++ pad4 i) ∧
    (match f (c.text?.getD "") (c.context?.getD []) with
     | Except.error e =>
       (processOne f i c).error? = some e ∧ (processOne f i c).classification? = none
     | Except.ok result =>
       (processOne f i c).error? = none ∧
       (processOne f i c).classification? = some (mkClassificationOut result)) := by
  refine ⟨classify_batch_go_length f 0 cs, ?_, ?_, ?_⟩
  · rw [classify_batch, classify_batch_go_getElem?, h]
    simp
  · cases hf : f (c.text?.getD "") (c.context?.getD []) <;> simp [processOne, hf]
  · cases hf : f (c.text?.getD "") (c.context?.getD []) <;> simp [processOne, hf]

/-- Witness for C2: five complaints where item 3 raises; the batch
produces five records, record 3 is the error record, the rest are
populated. -/
theorem C2_batch_isolation_witness :
    (classify_batch demoClassify demoComplaints).length = demoComplaints.length ∧
    (classify_batch demoClassify demoComplaints)[2]? =
      some (processOne demoClassify 2 demoThird) ∧
    (processOne demoClassify 2 demoThird).complaint_id =
      demoThird.id?.getD ("COMPLAINT_" ++ pad4 2) ∧
    (match demoClassify (demoThird.text?.getD "") (demoThird.context?.getD []) with
     | Except.error e =>
       (processOne demoClassify 2 demoThird).error? = some e ∧
       (processOne demoClassify 2 demoThird).classification? = none
     | Except.ok result =>
       (processOne demoClassify 2 demoThird).error? = none ∧
       (processOne demoClassify 2 demoThird).classification? =
         some (mkClassificationOut result)) :=
  C2_batch_isolation demoClassify demoComplaints 2 demoThird rfl

/-- Counterexample to claim C3: `clean_text` is not idempotent — a second
pass rewrites the output of the first on `"12/31/24"` (whose `[DATE]`
token contains the uppercase word `DATE`, which the ID pattern redacts). -/
theorem C3_idempotence_cex :
    clean_text (clean_text "12/31/24") ≠ clean_text "12/31/24" := by decide

/-- Claim C3 as amended: `clean_text("")` returns `""`, and the token
`[ID]` (and `[[ID]]`) are fixed points, but `clean_text` is not
idempotent: the redaction tokens `[NAME]`, `[NUMBER]`, `[DATE]`,
`[EMAIL]`, `[PHONE]` are themselves redacted by a second pass — their
uppercase words match the `[A-Z0-9]{3,}` ID pattern and become `[[ID]]`. -/
theorem C3_empty_and_token_behaviour :
    clean_text "" = "" ∧ clean_text "[ID]" = "[ID]" ∧ clean_text "[[ID]]" = "[[ID]]" ∧
    clean_text "[DATE]" = "[[ID]]" ∧ clean_text "[EMAIL]" = "[[ID]]" ∧
    clean_text "[NAME]" = "[[ID]]" ∧ clean_text "[NUMBER]" = "[[ID]]" ∧
    clean_text "[PHONE]" = "[[ID]]" := by decide

/-- Claim C4 (code bug): on the spec's own example `"12/31/2024"` the
broad ID pattern consumes the 4-digit year before the date pattern runs,
so the date token does not resolve to `[DATE]`; only 2-digit-year dates
such as `"12/31/24"` do. -/
theorem C4_numeric_date_divergence :
    clean_text "12/31/2024" = "12/31/[ID]" ∧ clean_text "12/31/24" = "[DATE]" := by decide

/-- Counterexample to claim C5: on `"rude error"` the conduct and
competence scores tie at 1 (health 0), and the result is `COMPETENCE`,
not the `CONDUCT` that the claimed CONDUCT > COMPETENCE tie precedence
would give. -/
theorem C5_tiebreak_cex :
    conduct_score "rude error" = 1 ∧ competence_score "rude error" = 1 ∧
    health_score "rude error" = 0 ∧
    (_classify_with_rules "rude error").category = ComplaintCategory.COMPETENCE ∧
    (_classify_with_rules "rude error").category ≠ ComplaintCategory.CONDUCT := by decide

/-- Claim C5 as amended: if all three keyword scores are 0 the result is
`NEEDS_REVIEW` with confidence 0.3 and suggested action "Manual review
required"; otherwise `CONDUCT` when its score strictly exceeds both
others, else `COMPETENCE` when its score strictly exceeds health's, else
`HEALTH` — so ties are broken by the precedence HEALTH > COMPETENCE >
CONDUCT — and confidence = min(0.9, 0.5 + chosen score × 0.1). -/
theorem C5_rules_decision (t : String) :
    if max (conduct_score t) (max (competence_score t) (health_score t)) = 0 then
      (_classify_with_rules t).category = ComplaintCategory.NEEDS_REVIEW ∧
      (_classify_with_rules t).confidence = 3/10 ∧
      "Manual review required" ∈ (_classify_with_rules t).suggested_actions
    else if conduct_score t > competence_score t ∧ conduct_score t > health_score t then
      (_classify_with_rules t).category = ComplaintCategory.CONDUCT ∧
      (_classify_with_rules t).confidence =
        min (9/10) (1/2 + (conduct_score t : ℚ) * (1/10))
    else if competence_score t > health_score t then
      (_classify_with_rules t).category = ComplaintCategory.COMPETENCE ∧
      (_classify_with_rules t).confidence =
        min (9/10) (1/2 + (competence_score t : ℚ) * (1/10))
    else
      (_classify_with_rules t).category = ComplaintCategory.HEALTH ∧
      (_classify_with_rules t).confidence =
        min (9/10) (1/2 + (health_score t : ℚ) * (1/10)) := by
  have hs := categorize_spec (conduct_score t) (competence_score t) (health_score t)
    (keywordsFound t)
  have hcat : (_classify_with_rules t).category =
      (categorize (conduct_score t) (competence_score t) (health_score t)
        (keywordsFound t)).category := rfl
  have hconf : (_classify_with_rules t).confidence =
      (categorize (conduct_score t) (competence_score t) (health_score t)
        (keywordsFound t)).confidence := rfl
  have hmem := choice_action_mem t
  split_ifs at hs ⊢ with h1 h2 h3
  · exact ⟨hcat ▸ hs.1, hconf ▸ hs.2.1, hs.2.2 ▸ hmem⟩
  · exact ⟨hcat ▸ hs.1, hconf ▸ hs.2⟩
  · exact ⟨hcat ▸ hs.1, hconf ▸ hs.2⟩
  · exact ⟨hcat ▸ hs.1, hconf ▸ hs.2⟩

/-- Claim C6: a text hitting a high-severity keyword (also when a
medium-severity keyword is present) is assigned severity `HIGH`, never
`MEDIUM`, and "URGENT: Immediate action required" is prepended as the
first suggested action. -/
theorem C6_severity_precedence (t : String)
    (hHigh : anyHit severity_high_keywords (strLower t) = true)
    (hMed : anyHit severity_medium_keywords (strLower t) = true) :
    (_classify_with_rules t).severity = SeverityLevel.HIGH ∧
    (_classify_with_rules t).severity ≠ SeverityLevel.MEDIUM ∧
    (_classify_with_rules t).suggested_actions.head? =
      some "URGENT: Immediate action required" := by
  unfold _classify_with_rules
  simp [hHigh]

/-- Witness for C6: "emergency pattern" contains a high-severity word and
a medium-severity word and is classified HIGH with the URGENT action
first. -/
theorem C6_severity_precedence_witness :
    (_classify_with_rules "emergency pattern").severity = SeverityLevel.HIGH ∧
    (_classify_with_rules "emergency pattern").severity ≠ SeverityLevel.MEDIUM ∧
    (_classify_with_rules "emergency pattern").suggested_actions.head? =
      some "URGENT: Immediate action required" :=
  C6_severity_precedence "emergency pattern" (by decide) (by decide)

/-- Claim C7: every rule-based result has confidence in [0, 1] and at
most 5 keywords. -/
theorem C7_result_invariants (t : String) :
    0 ≤ (_classify_with_rules t).confidence ∧
    (_classify_with_rules t).confidence ≤ 1 ∧
    (_classify_with_rules t).keywords.length ≤ 5 := by
  refine ⟨(categorize_confidence_bounds _ _ _ _).1, (categorize_confidence_bounds _ _ _ _).2, ?_⟩
  have h : (_classify_with_rules t).keywords =
      (hitsOf conduct_keywords (strLower t) ++ hitsOf competence_keywords (strLower t)
        ++ hitsOf health_keywords (strLower t)).take 5 := rfl
  rw [h]
  exact List.length_take_le 5 _

/-- Claim C8: the three ratios of `extract_features` sum to 1 whenever
any raw category count is nonzero and are all 0 otherwise; raw counts
(2, 1, 1) yield ratios (1/2, 1/4, 1/4). -/
theorem C8_ratio_invariant :
    (∀ t : String,
      if 0 < (extract_features t).conduct_score + (extract_features t).competence_score
          + (extract_features t).health_score then
        (extract_features t).conduct_ratio + (extract_features t).competence_ratio
          + (extract_features t).health_ratio = 1
      else
        (extract_features t).conduct_ratio = 0 ∧
        (extract_features t).competence_ratio = 0 ∧
        (extract_features t).health_ratio = 0) ∧
    ((extract_features "rude hostile treatment tired").conduct_score = 2 ∧
     (extract_features "rude hostile treatment tired").competence_score = 1 ∧
     (extract_features "rude hostile treatment tired").health_score = 1 ∧
     (extract_features "rude hostile treatment tired").conduct_ratio = 1/2 ∧
     (extract_features "rude hostile treatment tired").competence_ratio = 1/4 ∧
     (extract_features "rude hostile treatment tired").health_ratio = 1/4) := by
  constructor
  · intro t
    unfold extract_features
    dsimp only
    split_ifs with hT
    · have hne : ((countHits conduct_indicators (strLower (clean_text t))
          + countHits competence_indicators (strLower (clean_text t))
          + countHits health_indicators (strLower (clean_text t)) : ℕ) : ℚ) ≠ 0 := by
        exact_mod_cast hT.ne'
      rw [div_add_div_same, div_add_div_same]
      rw [show ((countHits conduct_indicators (strLower (clean_text t)) : ℚ)
          + (countHits competence_indicators (strLower (clean_text t)) : ℚ)
          + (countHits health_indicators (strLower (clean_text t)) : ℚ))
          = ((countHits conduct_indicators (strLower (clean_text t))
          + countHits competence_indicators (strLower (clean_text t))
          + countHits health_indicators (strLower (clean_text t)) : ℕ) : ℚ) by push_cast; ring]
      exact div_self hne
    · exact ⟨rfl, rfl, rfl⟩
  · obtain ⟨e1, e2, e3, r1, r2, r3⟩ := extract_features_ratio_eq "rude hostile treatment tired"
    have hc : countHits conduct_indicators
        (strLower (clean_text "rude hostile treatment tired")) = 2 := by decide
    have hk : countHits competence_indicators
        (strLower (clean_text "rude hostile treatment tired")) = 1 := by decide
    have hh : countHits health_indicators
        (strLower (clean_text "rude hostile treatment tired")) = 1 := by decide
    rw [e1, e2, e3] at r1 r2 r3
    rw [hc, hk, hh] at r1 r2 r3
    refine ⟨e1.trans hc, e2.trans hk, e3.trans hh, ?_, ?_, ?_⟩
    · rw [r1]; norm_num
    · rw [r2]; norm_num
    · rw [r3]; norm_num

/-- Counterexample to claim C9: `extract_features` counts words of the
cleaned text, not the raw text — on "John Smith called" the cleaned text
"[[id]] called" has 2 words while the raw text has 3. -/
theorem C9_wordcount_cex :
    (extract_features "John Smith called").text_length ≠
      (pySplit "John Smith called").length := by decide

/-- Claim C9 as amended: the word count is the whitespace split of the
cleaned, lower-cased text (not the raw text); the sentence count splits
the raw text on runs of '.', '!', '?'. -/
theorem C9_count_sources (t : String) :
    (extract_features t).text_length = (pySplit (strLower (clean_text t))).length ∧
    (extract_features t).sentence_count = (rePunctSplit t).length :=
  ⟨rfl, rfl⟩

/-- Claim C10: `evaluate_accuracy` maintains total = successful + errors,
a record is successful exactly when it carries both a classification and
a ground-truth label (so the errors metric counts every record missing
either key), and with no qualifying record the initial all-zero metrics
are returned. -/
theorem C10_accuracy_bookkeeping (results : List ResultRecord) :
    (evaluate_accuracy results).total_processed =
      (evaluate_accuracy results).successful_classifications +
        (evaluate_accuracy results).errors ∧
    (evaluate_accuracy results).errors =
      (results.filter (fun r => !(hasBoth r))).length ∧
    (if (results.filter hasBoth).isEmpty then
       (evaluate_accuracy results).overall_accuracy = 0 ∧
       (evaluate_accuracy results).category_metrics = [] ∧
       (evaluate_accuracy results).confidence_high = 0 ∧
       (evaluate_accuracy results).confidence_medium = 0 ∧
       (evaluate_accuracy results).confidence_low = 0 ∧
       (evaluate_accuracy results).severity_distribution = [] ∧
       (evaluate_accuracy results).review_required = 0
     else True) := by
  have hsum := length_filter_add_length_filter_not hasBoth results
  have hle : (results.filter hasBoth).length ≤ results.length := by omega
  unfold evaluate_accuracy
  by_cases hE : (results.filter hasBoth).isEmpty <;> simp [hE] <;> omega

end MediTriage
